import Mathlib

/-!
Verification development for the basketball tactics board's spatial
simulation subsystem (frontend/src/utils/playerUtils.ts and the
interpolation helpers of TacticsBoard.tsx), shallowly embedded in Lean.
JavaScript numbers are modelled as rationals where the code is exact
arithmetic and as reals where `Math.sqrt` is involved; string parsing
(`parseInt`, `split`, `includes`) is modelled directly on Lean strings.
The court constants `SCALE`, `COURT_WIDTH` and `COURT_HEIGHT` are
imported by playerUtils.ts from `utils/constants.ts`; the content of
that module appears among the sources appended to utils/projection.ts
(`SCALE = 45`, `COURT_WIDTH = 28.65 * SCALE`,
`COURT_HEIGHT = 15.24 * SCALE`) and is embedded here as fixed
definitions.
-/

namespace TacticsBoard

/-- Plane position `{x, y}` (types/index.ts). -/
@[ext] structure Position where
  x : ℝ
  y : ℝ
deriving Inhabited

/-- One hot-zone record `{pct, fga, fgm}` (types/index.ts, PlayerProfile.stats.hotZones). -/
structure ZoneStat where
  pct : ℝ
  fga : ℚ
  fgm : ℚ

/-- Subset of `PlayerProfile.stats` read by the core (types/index.ts):
height and weight strings and the zone-keyed shooting percentages.
A JavaScript object is modelled as an association list over its keys. -/
structure PlayerStats where
  height : Option String
  weight : Option String
  hotZones : Option (List (String × ZoneStat))

/-- PlayerProfile with its optional stats (types/index.ts). -/
structure PlayerProfile where
  stats : Option PlayerStats

/-- Player entity (types/index.ts): identity, position, facing rotation,
optional profile.  Team tag and jersey number are not read by the
functions verified here. -/
structure Player where
  id : String
  position : Position
  rotation : Option ℝ
  profile : Option PlayerProfile

/-- Ball entity (types/index.ts). -/
structure Ball where
  id : String
  position : Position
  ownerId : Option String

/-- Court view mode (types/index.ts, ViewMode). -/
inductive ViewMode where
  | full
  | half
deriving DecidableEq

/-- The apostrophe character, written via its code point. -/
def apoChar : Char := Char.ofNat 39

/-- Split a character list at every occurrence of the character `c`,
modelling JavaScript `String.split` with a one-character separator. -/
def splitOnChar (c : Char) : List Char → List (List Char)
  | [] => [[]]
  | a :: rest =>
    let r := splitOnChar c rest
    if a = c then [] :: r
    else
      match r with
      | [] => [[a]]
      | g :: gs => (a :: g) :: gs

/-- Value of a leading run of decimal digits; `none` when the run is empty
(JavaScript `parseInt` yields `NaN` in that case). -/
def digitsValue (cs : List Char) : Option Nat :=
  let ds := cs.takeWhile Char.isDigit
  if ds.isEmpty then none
  else some (ds.foldl (fun a c => a * 10 + (c.toNat - 48)) 0)

/-- Model of JavaScript `parseInt` on base-10 input over a character
list: skip leading whitespace, accept an optional sign, read leading
digits; `NaN` (here `none`) when no digit is found. -/
def jsParseIntChars (cs : List Char) : Option Int :=
  match cs.dropWhile Char.isWhitespace with
  | '-' :: rest => (digitsValue rest).map (fun n => -(n : Int))
  | '+' :: rest => (digitsValue rest).map (fun n => (n : Int))
  | ds => (digitsValue ds).map (fun n => (n : Int))

/-- Model of JavaScript `parseInt(s)`. -/
def jsParseInt (s : String) : Option Int :=
  jsParseIntChars s.toList

/-- Check whether `needle` occurs in front of the list `hay`. -/
def startsWithChars : List Char → List Char → Bool
  | [], _ => true
  | _ :: _, [] => false
  | a :: as, b :: bs => a = b && startsWithChars as bs

/-- Occurrence of `needle` anywhere in `hay`. -/
def hasSubChars (hay needle : List Char) : Bool :=
  if startsWithChars needle hay then true
  else
    match hay with
    | [] => false
    | _ :: rest => hasSubChars rest needle

/-- Model of JavaScript `s.includes(sub)`: substring occurrence, with the
empty string contained in every string. -/
def jsIncludes (s sub : String) : Bool :=
  hasSubChars s.toList sub.toList

/-- Total inches encoded by a height string such as `6'3`
(playerUtils.ts lines 19-29): split on the apostrophe, require exactly
two parts, `parseInt` each part.  `none` when the shape or either parse
fails (in the source a `NaN` simply fails the `> 72` guard). -/
def heightTotalInches (h : String) : Option Int :=
  let parts := splitOnChar apoChar h.toList
  if parts.length = 2 then
    match jsParseIntChars (parts.getD 0 []), jsParseIntChars (parts.getD 1 []) with
    | some feet, some inches => some (feet * 12 + inches)
    | _, _ => none
  else none

/-- Height block of `getPlayerRadius` (playerUtils.ts lines 18-30):
+0.3 per inch over 72, 0 when absent, unparseable, or not above 72. -/
def heightBonus (height : Option String) : ℚ :=
  match height with
  | none => 0
  | some h =>
    match heightTotalInches h with
    | some totalInches =>
      if totalInches > 72 then (totalInches - 72 : ℚ) * (3/10) else 0
    | none => 0

/-- Weight block of `getPlayerRadius` (playerUtils.ts lines 32-39):
+0.05 per lb over 180, 0 when absent, `NaN`, or not above 180. -/
def weightBonus (weight : Option String) : ℚ :=
  match weight with
  | none => 0
  | some w =>
    match jsParseInt w with
    | some lbs => if lbs > 180 then (lbs - 180 : ℚ) * (1/20) else 0
    | none => 0

/-- Visual radius of a player from physical stats (playerUtils.ts,
`getPlayerRadius`, lines 11-43): base 14 plus the height and weight
bonuses, the total bonus capped at 8. -/
def getPlayerRadius (player : Player) : ℚ :=
  let baseRadius : ℚ := 14
  match player.profile with
  | none => baseRadius
  | some profile =>
    match profile.stats with
    | none => baseRadius
    | some stats =>
      min (baseRadius + 8) (baseRadius + (heightBonus stats.height + weightBonus stats.weight))

/-- Pixel scale of the court, 1 meter = 45 pixels (utils/constants.ts,
whose content is appended to utils/projection.ts, line 46). -/
noncomputable def SCALE : ℝ := 45

/-- Court width in pixels: 28.65 m at `SCALE` (utils/constants.ts). -/
noncomputable def COURT_WIDTH : ℝ := 28.65 * SCALE

/-- Court height in pixels: 15.24 m at `SCALE` (utils/constants.ts). -/
noncomputable def COURT_HEIGHT : ℝ := 15.24 * SCALE

open Classical in
/-- Zone classifier (playerUtils.ts, `getZoneName`, lines 45-61). -/
noncomputable def getZoneName (pos basketPos : Position) (viewMode : ViewMode) : String :=
  let dx := pos.x - basketPos.x
  let dy := pos.y - basketPos.y
  let distPixels := Real.sqrt (dx * dx + dy * dy)
  let distMeters := distPixels / SCALE
  if distMeters < 1.25 then "Restricted Area"
  else if distMeters < 4.75 then "In The Paint (Non-RA)"
  else
    let isCorner := 6.7 < distMeters ∧ distMeters < 8.5 ∧
      (match viewMode with
       | .half => |pos.x - basketPos.x| > COURT_WIDTH / 2 * 0.8
       | .full => |pos.y - basketPos.y| > COURT_HEIGHT / 2 * 0.8)
    if isCorner then
      if 6.7 < distMeters then
        (if pos.x < basketPos.x then "Left Corner 3" else "Right Corner 3")
      else "Mid-Range"
    else if distMeters < 7.24 then "Mid-Range"
    else "Above the Break 3"

/-- Basket position per view mode (playerUtils.ts lines 69-71). -/
noncomputable def basketPos (viewMode : ViewMode) : Position :=
  match viewMode with
  | .half => ⟨COURT_WIDTH / 2, 35⟩
  | .full => ⟨40, COURT_HEIGHT / 2⟩

/-- On-ball gap computation (playerUtils.ts lines 110-122): base 45 minus
300 times the percentage difference, clamped to `[30, 150]`, then capped
by the rim-protection limit `maxDist`. -/
noncomputable def onBallGap (pct avgPct maxDist : ℝ) : ℝ :=
  let diff := pct - avgPct
  let gap := 45 - diff * 300
  let gap := max 30 (min gap 150)
  min gap maxDist

/-- Off-ball sagging gap (playerUtils.ts lines 124-134): sag distance by
distance-to-ball band, tightened by 0.7 for credible shooters, capped by
the rim-protection limit. -/
noncomputable def offBallGap (distToBall pct maxDist : ℝ) : ℝ :=
  let sagDistance : ℝ := if distToBall > 300 then 120 else if distToBall > 150 then 80 else 60
  let sagDistance := if pct > 0.40 then sagDistance * 0.7 else sagDistance
  min sagDistance maxDist

/-- Squared distance from point `p` to the segment `[v, w]`
(playerUtils.ts, `distToSegmentSq`, lines 149-157). -/
noncomputable def distToSegmentSq (p v w : Position) : ℝ :=
  let l2 := (v.x - w.x) ^ 2 + (v.y - w.y) ^ 2
  if l2 = 0 then (p.x - v.x) ^ 2 + (p.y - v.y) ^ 2
  else
    let t := ((p.x - v.x) * (w.x - v.x) + (p.y - v.y) * (w.y - v.y)) / l2
    let t := max 0 (min 1 t)
    let projX := v.x + t * (w.x - v.x)
    let projY := v.y + t * (w.y - v.y)
    (p.x - projX) ^ 2 + (p.y - projY) ^ 2

/-- Accumulator of the screen loop of `calculateGhostDefender`: candidate
ghost position, screened flag, accumulated displacement. -/
structure ScreenState where
  ghostPos : Position
  isScreened : Bool
  screenDisplacement : ℝ

/-- Body of the `allPlayers.forEach` screen loop of
`calculateGhostDefender` (playerUtils.ts lines 159-197): skip the
attacker; direct-collision check pushing the candidate out and
accumulating the overlap; then the path-obstruction check, which the
source gates on the accumulated `isScreened` flag. -/
noncomputable def screenStep (attacker : Player) (attackerPos : Position)
    (st : ScreenState) (other : Player) : ScreenState :=
  if other.id = attacker.id then st
  else
    let otherRadius : ℝ := (getPlayerRadius other : ℝ)
    let minDist : ℝ := 14 + otherRadius
    let dx := st.ghostPos.x - other.position.x
    let dy := st.ghostPos.y - other.position.y
    let dist := Real.sqrt (dx * dx + dy * dy)
    let st1 :=
      if dist < minDist ∧ 0 < dist then
        let overlap := minDist - dist
        { ghostPos := ⟨st.ghostPos.x + dx / dist * overlap,
                       st.ghostPos.y + dy / dist * overlap⟩
          isScreened := true
          screenDisplacement := st.screenDisplacement + overlap }
      else st
    if st1.isScreened = false then
      let dist2 := Real.sqrt (distToSegmentSq other.position st1.ghostPos attackerPos)
      if dist2 < minDist then
        { st1 with isScreened := true
                   screenDisplacement := st1.screenDisplacement + (minDist - dist2) }
      else st1
    else st1

/-- Result record of `calculateGhostDefender` (playerUtils.ts lines 68,
199-207). -/
structure GhostResult where
  position : Position
  radius : ℝ
  gap : ℝ
  isRealData : Bool
  pct : ℝ
  isScreened : Bool
  screenDisplacement : ℝ

open Classical in
/-- Ghost-defender estimator (playerUtils.ts, `calculateGhostDefender`,
lines 63-208).  The `forEach` screen loop is a left fold of
`screenStep` over the roster. -/
noncomputable def calculateGhostDefender (attacker : Player) (ball : Option Ball)
    (viewMode : ViewMode) (allPlayers : List Player) : GhostResult :=
  let BASKET_POS := basketPos viewMode
  let attackerPos := attacker.position
  let vecToBasket : Position := ⟨BASKET_POS.x - attackerPos.x, BASKET_POS.y - attackerPos.y⟩
  let distToBasket := Real.sqrt (vecToBasket.x ^ 2 + vecToBasket.y ^ 2)
  let denom := if distToBasket = 0 then 1 else distToBasket
  let dirToBasket : Position := ⟨vecToBasket.x / denom, vecToBasket.y / denom⟩
  let maxDist := max 0 (distToBasket - 15)
  let zoneName := getZoneName attackerPos BASKET_POS viewMode
  let lookup : Option (String × ZoneStat) :=
    match attacker.profile with
    | some profile =>
      match profile.stats with
      | some stats =>
        match stats.hotZones with
        | some zones => zones.find? (fun kv => jsIncludes kv.1 zoneName)
        | none => none
      | none => none
    | none => none
  let pct : ℝ := match lookup with | some kv => kv.2.pct | none => 0.35
  let isRealData : Bool := match lookup with | some _ => true | none => false
  let hasBall : Prop := match ball with
    | some b => b.ownerId = some attacker.id
    | none => False
  let ballPos : Position := match ball with | some b => b.position | none => ⟨0, 0⟩
  let gap : ℝ :=
    if hasBall then
      let avgPct : ℝ :=
        if jsIncludes zoneName "Restricted" then 0.60
        else if jsIncludes zoneName "Paint" then 0.50
        else if jsIncludes zoneName "Mid" then 0.40
        else 0.35
      onBallGap pct avgPct maxDist
    else
      let distToBall := Real.sqrt ((attackerPos.x - ballPos.x) ^ 2 + (attackerPos.y - ballPos.y) ^ 2)
      offBallGap distToBall pct maxDist
  let ghostPos : Position := ⟨attackerPos.x + dirToBasket.x * gap, attackerPos.y + dirToBasket.y * gap⟩
  let final := allPlayers.foldl (screenStep attacker attackerPos)
    ⟨ghostPos, false, 0⟩
  { position := final.ghostPos
    radius := 14
    gap := gap
    isRealData := isRealData
    pct := pct
    isScreened := final.isScreened
    screenDisplacement := final.screenDisplacement }

open Classical in
/-- Variant of `screenStep` written to the specification's words: the
path-obstruction check is gated per entity, on whether the
direct-overlap check triggered for this same entity, rather than on the
globally accumulated `isScreened` flag.  Used only to compare the code
against the specified behaviour. -/
noncomputable def screenStepSpec (attacker : Player) (attackerPos : Position)
    (st : ScreenState) (other : Player) : ScreenState :=
  if other.id = attacker.id then st
  else
    let otherRadius : ℝ := (getPlayerRadius other : ℝ)
    let minDist : ℝ := 14 + otherRadius
    let dx := st.ghostPos.x - other.position.x
    let dy := st.ghostPos.y - other.position.y
    let dist := Real.sqrt (dx * dx + dy * dy)
    let directHit : Prop := dist < minDist ∧ 0 < dist
    let st1 :=
      if directHit then
        let overlap := minDist - dist
        { ghostPos := ⟨st.ghostPos.x + dx / dist * overlap,
                       st.ghostPos.y + dy / dist * overlap⟩
          isScreened := true
          screenDisplacement := st.screenDisplacement + overlap }
      else st
    if ¬ directHit then
      let dist2 := Real.sqrt (distToSegmentSq other.position st1.ghostPos attackerPos)
      if dist2 < minDist then
        { st1 with isScreened := true
                   screenDisplacement := st1.screenDisplacement + (minDist - dist2) }
      else st1
    else st1

open Classical in
/-- Ghost-defender estimator as the specification describes it: identical
to `calculateGhostDefender` except that the screen loop folds
`screenStepSpec`, so that every entity's real or virtual overlap is
accumulated. -/
noncomputable def calculateGhostDefenderSpec (attacker : Player) (ball : Option Ball)
    (viewMode : ViewMode) (allPlayers : List Player) : GhostResult :=
  let code := calculateGhostDefender attacker ball viewMode []
  let final := allPlayers.foldl (screenStepSpec attacker attacker.position)
    ⟨code.position, false, 0⟩
  { code with
    position := final.ghostPos
    isScreened := final.isScreened
    screenDisplacement := final.screenDisplacement }

/-- Catmull-Rom spline evaluation over a control-point path
(TacticsBoard.tsx, `getPointOnSpline`, lines 222-263).  Out-of-range list
reads cannot occur for the index computed; `getD` supplies the JS
`undefined` slot with the origin. -/
noncomputable def getPointOnSpline (points : List Position) (t : ℝ) : Position :=
  match points with
  | [] => ⟨0, 0⟩
  | [p] => p
  | [p, q] => ⟨p.x + (q.x - p.x) * t, p.y + (q.y - p.y) * t⟩
  | _ =>
    let n := points.length
    let totalSegments : ℤ := (n : ℤ) - 1
    let segmentT := t * (totalSegments : ℝ)
    let index : ℤ := ⌊segmentT⌋
    let localT := segmentT - (index : ℝ)
    let i : ℤ := min (max index 0) (totalSegments - 1)
    let p0 := points.getD (if i = 0 then 0 else (i - 1).toNat) ⟨0, 0⟩
    let p1 := points.getD i.toNat ⟨0, 0⟩
    let p2 := points.getD (i + 1).toNat ⟨0, 0⟩
    let p3 := points.getD (if i + 2 ≥ (n : ℤ) then n - 1 else (i + 2).toNat) ⟨0, 0⟩
    let tt := localT * localT
    let ttt := tt * localT
    ⟨0.5 * ((2 * p1.x) + (-p0.x + p2.x) * localT +
        (2 * p0.x - 5 * p1.x + 4 * p2.x - p3.x) * tt +
        (-p0.x + 3 * p1.x - 3 * p2.x + p3.x) * ttt),
     0.5 * ((2 * p1.y) + (-p0.y + p2.y) * localT +
        (2 * p0.y - 5 * p1.y + 4 * p2.y - p3.y) * tt +
        (-p0.y + 3 * p1.y - 3 * p2.y + p3.y) * ttt)⟩

open Classical in
/-- Path interpolation as invoked by the animation driver
(TacticsBoard.tsx lines 360-366): any `t ≥ 1` snaps exactly to the last
control point, otherwise the spline is evaluated. -/
noncomputable def interpolatePath (path : List Position) (t : ℝ) : Position :=
  if t ≥ 1 then path.getD (path.length - 1) ⟨0, 0⟩
  else getPointOnSpline path t

open Classical in
/-- Rotation interpolation between two player poses (TacticsBoard.tsx
lines 372-377): the raw delta is wrap-normalised into `[-180, 180]` by a
single ±360 correction before scaling by `t`. -/
noncomputable def interpRotation (r1 r2 t : ℝ) : ℝ :=
  let delta := r2 - r1
  let delta := if delta > 180 then delta - 360 else delta
  let delta := if delta < -180 then delta + 360 else delta
  r1 + delta * t

/-- Circular obstacle fed to the collision resolver (playerUtils.ts line
219): position and fixed radius. -/
structure Obstacle where
  position : Position
  radius : ℝ

open Classical in
/-- Body shared by both loops of `resolveCollisions` (playerUtils.ts
lines 236-249 and 257-268): push the current position out of overlap
with a circle of radius `otherRadius` centred at `otherPos`, guarded by
`dist < minDist` and `dist > 0`. -/
noncomputable def pushOut (activeRadius otherRadius : ℝ) (otherPos : Position)
    (c : ℝ × ℝ) : ℝ × ℝ :=
  let minDist := activeRadius + otherRadius
  let dx := c.1 - otherPos.x
  let dy := c.2 - otherPos.y
  let dist := Real.sqrt (dx * dx + dy * dy)
  if dist < minDist ∧ 0 < dist then
    let overlap := minDist - dist
    (c.1 + dx / dist * overlap, c.2 + dy / dist * overlap)
  else c

open Classical in
/-- Collision resolver (playerUtils.ts, `resolveCollisions`, lines
214-272): sequentially push the active player's proposed position out of
overlap with every other player, then with every obstacle; identity when
the active id matches no player. -/
noncomputable def resolveCollisions (activePlayerId : String) (newX newY : ℝ)
    (allPlayers : List Player) (obstacles : List Obstacle) : ℝ × ℝ :=
  match allPlayers.find? (fun p => p.id == activePlayerId) with
  | none => (newX, newY)
  | some activePlayer =>
    let activeRadius : ℝ := (getPlayerRadius activePlayer : ℝ)
    let afterPlayers := allPlayers.foldl
      (fun c other =>
        if other.id = activePlayerId then c
        else pushOut activeRadius (getPlayerRadius other : ℝ) other.position c)
      (newX, newY)
    obstacles.foldl
      (fun c obs => pushOut activeRadius obs.radius obs.position c)
      afterPlayers

/-! Theorems -/

/-- Auxiliary: a left fold whose step fixes the accumulator on every
list element leaves the accumulator unchanged. -/
theorem foldl_fixed {α β : Type} (f : β → α → β) (c : β) (l : List α)
    (h : ∀ a ∈ l, f c a = c) : l.foldl f c = c := by
  induction l with
  | nil => rfl
  | cons a l ih =>
    have ha : f c a = c := h a (List.mem_cons_self a l)
    simp only [List.foldl_cons, ha]
    exact ih (fun b hb => h b (List.mem_cons_of_mem a hb))

/-- C8: in the collision-resolution loop body, an entity or obstacle
whose center coincides exactly with the active position contributes no
correction — the `dist > 0` guard fails and the iteration returns the
position unchanged. -/
theorem pushOut_zero_distance_fixed (activeRadius otherRadius : ℝ) (p : Position) :
    pushOut activeRadius otherRadius p (p.x, p.y) = (p.x, p.y) := by
  simp only [pushOut, sub_self, mul_zero, add_zero, Real.sqrt_zero]
  rw [if_neg]
  rintro ⟨-, h0⟩
  exact lt_irrefl 0 h0

/-- C9: rotation interpolation follows the shortest angular path: a raw
delta above 180 is reduced by 360, a raw delta below −180 is increased
by 360, before scaling by `t`; in particular interpolating from 170° to
−170° halfway yields exactly 180°, not 0°. -/
theorem interpRotation_shortest_path :
    (∀ r1 r2 t : ℝ, 180 < r2 - r1 →
      interpRotation r1 r2 t = r1 + (r2 - r1 - 360) * t) ∧
    (∀ r1 r2 t : ℝ, r2 - r1 < -180 →
      interpRotation r1 r2 t = r1 + (r2 - r1 + 360) * t) ∧
    interpRotation 170 (-170) (1/2) = 180 := by
  refine ⟨?_, ?_, ?_⟩
  · intro r1 r2 t h
    simp only [interpRotation]
    rw [if_pos h, if_neg (by linarith)]
  · intro r1 r2 t h
    simp only [interpRotation]
    have h1 : ¬(r2 - r1 > 180) := by linarith
    rw [if_neg h1, if_pos h]
  · simp only [interpRotation]
    have h1 : ¬((-170 : ℝ) - 170 > 180) := by norm_num
    rw [if_neg h1]
    have h2 : (-170 : ℝ) - 170 < -180 := by norm_num
    rw [if_pos h2]
    norm_num

/-- Witness for C9 at concrete inputs: a +200° raw delta interpolates to
−160° at `t = 1`, and a −200° raw delta to 160°. -/
theorem interpRotation_shortest_path_witness :
    interpRotation 0 200 1 = -160 ∧ interpRotation 0 (-200) 1 = 160 := by
  constructor
  · rw [interpRotation_shortest_path.1 0 200 1 (by norm_num)]; norm_num
  · rw [interpRotation_shortest_path.2.1 0 (-200) 1 (by norm_num)]; norm_num

/-- C10: when the active id matches no player in the roster, the
collision resolver returns the proposed position unchanged. -/
theorem resolveCollisions_unknown_id (activePlayerId : String) (newX newY : ℝ)
    (allPlayers : List Player) (obstacles : List Obstacle)
    (h : ∀ p ∈ allPlayers, p.id ≠ activePlayerId) :
    resolveCollisions activePlayerId newX newY allPlayers obstacles = (newX, newY) := by
  have hf : allPlayers.find? (fun p => p.id == activePlayerId) = none := by
    apply List.find?_eq_none.mpr
    intro p hp
    simpa using h p hp
  simp [resolveCollisions, hf]

/-- Witness for C10: an unmatched active id returns the input position
even though another player sits directly on it. -/
theorem resolveCollisions_unknown_id_witness :
    resolveCollisions "ghost" 50 60
      [⟨"p1", ⟨50, 60⟩, none, none⟩] [⟨⟨50, 60⟩, 14⟩] = (50, 60) := by
  apply resolveCollisions_unknown_id
  intro p hp
  simp only [List.mem_singleton] at hp
  subst hp
  decide

/-- C5: in the on-ball branch, wherever the raw value `45 − diff × 300`
lies strictly inside the clamp interval `[30, 150]` and below the
rim-buffer limit, the gap equals that raw value, so a strictly larger
shooting-percentage difference yields a strictly smaller gap. -/
theorem onBallGap_strict_antitone (pct1 pct2 avgPct maxDist : ℝ)
    (h1a : 30 < 45 - (pct1 - avgPct) * 300) (h1b : 45 - (pct1 - avgPct) * 300 < 150)
    (h1c : 45 - (pct1 - avgPct) * 300 < maxDist)
    (h2a : 30 < 45 - (pct2 - avgPct) * 300) (h2b : 45 - (pct2 - avgPct) * 300 < 150)
    (h2c : 45 - (pct2 - avgPct) * 300 < maxDist)
    (hlt : pct1 - avgPct < pct2 - avgPct) :
    onBallGap pct2 avgPct maxDist < onBallGap pct1 avgPct maxDist := by
  have e : ∀ p : ℝ, 30 < 45 - (p - avgPct) * 300 → 45 - (p - avgPct) * 300 < 150 →
      45 - (p - avgPct) * 300 < maxDist →
      onBallGap p avgPct maxDist = 45 - (p - avgPct) * 300 := by
    intro p ha hb hc
    simp only [onBallGap]
    rw [min_eq_left (le_of_lt hb), max_eq_right (le_of_lt ha), min_eq_left (le_of_lt hc)]
  rw [e pct1 h1a h1b h1c, e pct2 h2a h2b h2c]
  linarith

/-- Witness for C5: a shooter 2 points above the zone average is guarded
tighter (gap 39) than an average shooter (gap 45). -/
theorem onBallGap_strict_antitone_witness :
    onBallGap 0.37 0.35 100 < onBallGap 0.35 0.35 100 :=
  onBallGap_strict_antitone 0.35 0.37 0.35 100 (by norm_num) (by norm_num) (by norm_num)
    (by norm_num) (by norm_num) (by norm_num) (by norm_num)

/-- C4: for any action path with at least two control points, the path
interpolation (spline evaluation plus the explicit `t ≥ 1` snap rule)
returns exactly the first control point at `t = 0` and exactly the last
control point at `t = 1`. -/
theorem interpolatePath_endpoints (path : List Position) (h : 2 ≤ path.length) :
    interpolatePath path 0 = path.getD 0 ⟨0, 0⟩ ∧
    interpolatePath path 1 = path.getD (path.length - 1) ⟨0, 0⟩ := by
  constructor
  · rw [interpolatePath, if_neg (by norm_num : ¬(0 : ℝ) ≥ 1)]
    match path, h with
    | [p, q], _ =>
      simp [getPointOnSpline]
    | p :: q :: r :: rest, _ =>
      simp only [getPointOnSpline, zero_mul, Int.floor_zero, Int.cast_zero, sub_zero,
        sub_self]
      have hi : min (max (0 : ℤ) 0) ((((p :: q :: r :: rest).length : ℤ) - 1) - 1) = 0 := by
        simp only [max_self]
        apply min_eq_left
        simp only [List.length_cons]
        omega
      rw [hi]
      simp only [if_pos rfl, Int.toNat_zero, Int.zero_add]
      norm_num [List.getD]
      ext <;> ring
  · rw [interpolatePath, if_pos (by norm_num : (1 : ℝ) ≥ 1)]

/-- Witness for C4 on a concrete three-point path. -/
theorem interpolatePath_endpoints_witness :
    interpolatePath [⟨0, 0⟩, ⟨7, 2⟩, ⟨3, 5⟩] 0 = ([⟨0, 0⟩, ⟨7, 2⟩, ⟨3, 5⟩] : List Position).getD 0 ⟨0, 0⟩ ∧
    interpolatePath [⟨0, 0⟩, ⟨7, 2⟩, ⟨3, 5⟩] 1 =
      ([⟨0, 0⟩, ⟨7, 2⟩, ⟨3, 5⟩] : List Position).getD (([⟨0, 0⟩, ⟨7, 2⟩, ⟨3, 5⟩] : List Position).length - 1) ⟨0, 0⟩ :=
  interpolatePath_endpoints [⟨0, 0⟩, ⟨7, 2⟩, ⟨3, 5⟩] (by norm_num)

/-- Auxiliary: the height bonus is never negative. -/
theorem heightBonus_nonneg (o : Option String) : 0 ≤ heightBonus o := by
  cases o with
  | none => simp [heightBonus]
  | some h =>
    simp only [heightBonus]
    cases heightTotalInches h with
    | none => norm_num
    | some t =>
      simp only []
      split_ifs with ht
      · have : (72 : ℚ) < (t : ℚ) := by exact_mod_cast ht
        nlinarith
      · norm_num

/-- Auxiliary: the weight bonus is never negative. -/
theorem weightBonus_nonneg (o : Option String) : 0 ≤ weightBonus o := by
  cases o with
  | none => simp [weightBonus]
  | some w =>
    simp only [weightBonus]
    cases jsParseInt w with
    | none => norm_num
    | some l =>
      simp only []
      split_ifs with hl
      · have : (180 : ℚ) < (l : ℚ) := by exact_mod_cast hl
        nlinarith
      · norm_num

/-- Auxiliary: the height bonus is monotone in the parsed total inches. -/
theorem heightBonus_mono (h1 h2 : String) (t1 t2 : ℤ)
    (e1 : heightTotalInches h1 = some t1) (e2 : heightTotalInches h2 = some t2)
    (hle : t1 ≤ t2) : heightBonus (some h1) ≤ heightBonus (some h2) := by
  simp only [heightBonus, e1, e2]
  have hc : (t1 : ℚ) ≤ (t2 : ℚ) := by exact_mod_cast hle
  split_ifs with a b b
  · nlinarith
  · omega
  · have : (72 : ℚ) < (t2 : ℚ) := by exact_mod_cast b
    nlinarith
  · norm_num

/-- Auxiliary: the weight bonus is monotone in the parsed pounds. -/
theorem weightBonus_mono (w1 w2 : String) (l1 l2 : ℤ)
    (e1 : jsParseInt w1 = some l1) (e2 : jsParseInt w2 = some l2)
    (hle : l1 ≤ l2) : weightBonus (some w1) ≤ weightBonus (some w2) := by
  simp only [weightBonus, e1, e2]
  have hc : (l1 : ℚ) ≤ (l2 : ℚ) := by exact_mod_cast hle
  split_ifs with a b b
  · nlinarith
  · omega
  · have : (180 : ℚ) < (l2 : ℚ) := by exact_mod_cast b
    nlinarith
  · norm_num

/-- C6: every computed player radius lies in `[14, 22]` (the combined
bonus on the base 14 being capped at 8), and for parseable stats the
radius is monotone non-decreasing in the parsed total height and parsed
weight. -/
theorem getPlayerRadius_range_and_mono :
    (∀ p : Player, 14 ≤ getPlayerRadius p ∧ getPlayerRadius p ≤ 14 + 8) ∧
    (∀ (p1 p2 : Player) (pr1 pr2 : PlayerProfile) (st1 st2 : PlayerStats)
       (hs1 hs2 ws1 ws2 : String) (t1 t2 l1 l2 : ℤ),
      p1.profile = some pr1 → pr1.stats = some st1 →
      st1.height = some hs1 → heightTotalInches hs1 = some t1 →
      st1.weight = some ws1 → jsParseInt ws1 = some l1 →
      p2.profile = some pr2 → pr2.stats = some st2 →
      st2.height = some hs2 → heightTotalInches hs2 = some t2 →
      st2.weight = some ws2 → jsParseInt ws2 = some l2 →
      t1 ≤ t2 → l1 ≤ l2 →
      getPlayerRadius p1 ≤ getPlayerRadius p2) := by
  constructor
  · intro p
    rcases hp : p.profile with _ | pr
    · simp [getPlayerRadius, hp]
    · rcases hs : pr.stats with _ | st
      · simp [getPlayerRadius, hp, hs]
      · have hb := heightBonus_nonneg st.height
        have wb := weightBonus_nonneg st.weight
        simp only [getPlayerRadius, hp, hs]
        constructor
        · exact le_min (by norm_num) (by linarith)
        · exact le_trans (min_le_left _ _) (by norm_num)
  · intro p1 p2 pr1 pr2 st1 st2 hs1 hs2 ws1 ws2 t1 t2 l1 l2
      hp1 hpr1 hh1 ht1 hw1 hl1 hp2 hpr2 hh2 ht2 hw2 hl2 htle hlle
    simp only [getPlayerRadius, hp1, hpr1, hh1, hw1, hp2, hpr2, hh2, hw2]
    have hbm := heightBonus_mono hs1 hs2 t1 t2 ht1 ht2 htle
    have wbm := weightBonus_mono ws1 ws2 l1 l2 hl1 hl2 hlle
    exact min_le_min (le_refl _) (by linarith)

/-- Witness for C6: a 6-foot-9, 250 lb player gets a radius at least
that of a 6-foot-3, 200 lb player, and a statless player gets 14, within
the cap. -/
theorem getPlayerRadius_range_and_mono_witness :
    (14 ≤ getPlayerRadius ⟨"a", ⟨0, 0⟩, none, none⟩ ∧
      getPlayerRadius ⟨"a", ⟨0, 0⟩, none, none⟩ ≤ 14 + 8) ∧
    getPlayerRadius ⟨"b", ⟨0, 0⟩, none,
        some ⟨some ⟨some ("6" ++ apoChar.toString ++ "3"), some "200", none⟩⟩⟩ ≤
      getPlayerRadius ⟨"c", ⟨0, 0⟩, none,
        some ⟨some ⟨some ("6" ++ apoChar.toString ++ "9"), some "250", none⟩⟩⟩ := by
  constructor
  · exact getPlayerRadius_range_and_mono.1 ⟨"a", ⟨0, 0⟩, none, none⟩
  · exact getPlayerRadius_range_and_mono.2
      ⟨"b", ⟨0, 0⟩, none, some ⟨some ⟨some ("6" ++ apoChar.toString ++ "3"), some "200", none⟩⟩⟩
      ⟨"c", ⟨0, 0⟩, none, some ⟨some ⟨some ("6" ++ apoChar.toString ++ "9"), some "250", none⟩⟩⟩
      ⟨some ⟨some ("6" ++ apoChar.toString ++ "3"), some "200", none⟩⟩
      ⟨some ⟨some ("6" ++ apoChar.toString ++ "9"), some "250", none⟩⟩
      ⟨some ("6" ++ apoChar.toString ++ "3"), some "200", none⟩
      ⟨some ("6" ++ apoChar.toString ++ "9"), some "250", none⟩
      ("6" ++ apoChar.toString ++ "3") ("6" ++ apoChar.toString ++ "9") "200" "250"
      75 81 200 250
      rfl rfl rfl (by decide) rfl (by decide) rfl rfl rfl (by decide) rfl (by decide)
      (by norm_num) (by norm_num)

/-- C7: the collision resolver is the identity on non-overlapping
configurations: when the proposed position keeps at least the combined
radii away from every other player and every obstacle, every guard in
the sequential pass fails and the returned position is exactly the
input; applying the resolver again to such a position therefore does not
move it either. -/
theorem resolveCollisions_no_overlap (activePlayerId : String) (newX newY : ℝ)
    (allPlayers : List Player) (obstacles : List Obstacle)
    (h : ∀ ap, allPlayers.find? (fun p => p.id == activePlayerId) = some ap →
      (∀ other ∈ allPlayers, other.id ≠ activePlayerId →
        (getPlayerRadius ap : ℝ) + (getPlayerRadius other : ℝ) ≤
          Real.sqrt ((newX - other.position.x) * (newX - other.position.x) +
            (newY - other.position.y) * (newY - other.position.y))) ∧
      (∀ obs ∈ obstacles, (getPlayerRadius ap : ℝ) + obs.radius ≤
          Real.sqrt ((newX - obs.position.x) * (newX - obs.position.x) +
            (newY - obs.position.y) * (newY - obs.position.y)))) :
    resolveCollisions activePlayerId newX newY allPlayers obstacles = (newX, newY) := by
  rcases hf : allPlayers.find? (fun p => p.id == activePlayerId) with _ | ap
  · simp [resolveCollisions, hf]
  · obtain ⟨hp, ho⟩ := h ap hf
    simp only [resolveCollisions, hf]
    have hinner := foldl_fixed
      (fun (c : ℝ × ℝ) other => if other.id = activePlayerId then c
        else pushOut (getPlayerRadius ap : ℝ) (getPlayerRadius other : ℝ) other.position c)
      (newX, newY) allPlayers ?_
    · rw [hinner]
      apply foldl_fixed
      intro obs hmem
      have hd := ho obs hmem
      simp only [pushOut]
      rw [if_neg]
      rintro ⟨hlt, -⟩
      exact absurd hlt (not_lt.mpr hd)
    · intro other hmem
      beta_reduce
      by_cases hid : other.id = activePlayerId
      · rw [if_pos hid]
      · rw [if_neg hid]
        have hd := hp other hmem hid
        simp only [pushOut]
        rw [if_neg]
        rintro ⟨hlt, -⟩
        exact absurd hlt (not_lt.mpr hd)

/-- Witness for C7: a proposed position 100 units from the only other
player and 100 units from the only obstacle (combined radii 28) is
returned unchanged. -/
theorem resolveCollisions_no_overlap_witness :
    resolveCollisions "a" 0 0
      [⟨"a", ⟨0, 0⟩, none, none⟩, ⟨"b", ⟨100, 0⟩, none, none⟩]
      [⟨⟨0, 100⟩, 14⟩] = (0, 0) := by
  apply resolveCollisions_no_overlap
  intro ap hap
  have hfind : ([⟨"a", ⟨0, 0⟩, none, none⟩, ⟨"b", ⟨100, 0⟩, none, none⟩] : List Player).find?
      (fun p => p.id == "a") = some ⟨"a", ⟨0, 0⟩, none, none⟩ := rfl
  rw [hfind] at hap
  injection hap with hap
  subst hap
  have hsq : Real.sqrt ((10000 : ℝ)) = 100 := by
    rw [show (10000 : ℝ) = 100 ^ 2 by norm_num]
    exact Real.sqrt_sq (by norm_num)
  constructor
  · intro other hmem hne
    simp only [List.mem_cons, List.not_mem_nil, or_false] at hmem
    rcases hmem with rfl | rfl
    · exact absurd rfl hne
    · show ((getPlayerRadius ⟨"a", ⟨0, 0⟩, none, none⟩ : ℚ) : ℝ) +
        ((getPlayerRadius ⟨"b", ⟨100, 0⟩, none, none⟩ : ℚ) : ℝ) ≤
        Real.sqrt (((0 : ℝ) - 100) * ((0 : ℝ) - 100) + ((0 : ℝ) - 0) * ((0 : ℝ) - 0))
      rw [show ((0 : ℝ) - 100) * ((0 : ℝ) - 100) + ((0 : ℝ) - 0) * ((0 : ℝ) - 0) = 10000 by
        norm_num]
      rw [hsq]
      norm_num [getPlayerRadius]
  · intro obs hmem
    simp only [List.mem_singleton] at hmem
    subst hmem
    show ((getPlayerRadius ⟨"a", ⟨0, 0⟩, none, none⟩ : ℚ) : ℝ) + (14 : ℝ) ≤
      Real.sqrt (((0 : ℝ) - 0) * ((0 : ℝ) - 0) + ((0 : ℝ) - 100) * ((0 : ℝ) - 100))
    rw [show ((0 : ℝ) - 0) * ((0 : ℝ) - 0) + ((0 : ℝ) - 100) * ((0 : ℝ) - 100) = 10000 by
      norm_num]
    rw [hsq]
    norm_num [getPlayerRadius]

/-- Counterexample to C2 as stated: a position 360 px = 8.0 m from the
basket (inside the corner band) with zero lateral offset is classified
"Above the Break 3", not "Mid-Range". -/
theorem getZoneName_corner_band_counterexample :
    getZoneName ⟨400, 342.9⟩ ⟨40, 342.9⟩ .full = "Above the Break 3" := by
  simp only [getZoneName]
  have h360 : Real.sqrt 129600 = 360 := by
    rw [show (129600 : ℝ) = 360 ^ 2 by norm_num, Real.sqrt_sq (by norm_num : (0 : ℝ) ≤ 360)]
  rw [show ((400 : ℝ) - 40) * ((400 : ℝ) - 40) +
      ((342.9 : ℝ) - 342.9) * ((342.9 : ℝ) - 342.9) = 129600 by norm_num, h360]
  have g3 : ¬((6.7 : ℝ) < 360 / SCALE ∧ (360 : ℝ) / SCALE < 8.5 ∧
      |(342.9 : ℝ) - 342.9| > COURT_HEIGHT / 2 * 0.8) := by
    rintro ⟨-, -, hc⟩
    rw [show |(342.9 : ℝ) - 342.9| = 0 by norm_num] at hc
    norm_num [COURT_HEIGHT, SCALE] at hc
  rw [if_neg (by norm_num [SCALE] : ¬((360 : ℝ) / SCALE < 1.25)),
    if_neg (by norm_num [SCALE] : ¬((360 : ℝ) / SCALE < 4.75)), if_neg g3,
    if_neg (by norm_num [SCALE] : ¬((360 : ℝ) / SCALE < 7.24))]

/-- C2 amended: a position in the corner distance band whose lateral
offset does not exceed 80% of the half-court span falls through to the
generic checks: "Mid-Range" when the distance is under 7.24 m, and
"Above the Break 3" otherwise. -/
theorem getZoneName_corner_band_fallthrough (pos basket : Position) (vm : ViewMode) (dm : ℝ)
    (hdm : dm = Real.sqrt ((pos.x - basket.x) * (pos.x - basket.x) +
      (pos.y - basket.y) * (pos.y - basket.y)) / SCALE)
    (h1 : 6.7 < dm) (_h2 : dm < 8.5)
    (hlat : match vm with
      | .half => |pos.x - basket.x| ≤ COURT_WIDTH / 2 * 0.8
      | .full => |pos.y - basket.y| ≤ COURT_HEIGHT / 2 * 0.8) :
    (dm < 7.24 → getZoneName pos basket vm = "Mid-Range") ∧
    (7.24 ≤ dm → getZoneName pos basket vm = "Above the Break 3") := by
  cases vm with
  | half =>
    simp only at hlat
    simp only [getZoneName]
    rw [← hdm]
    have g1 : ¬(dm < 1.25) := by linarith
    have g2 : ¬(dm < 4.75) := by linarith
    have g3 : ¬(6.7 < dm ∧ dm < 8.5 ∧ |pos.x - basket.x| > COURT_WIDTH / 2 * 0.8) := by
      rintro ⟨-, -, hc⟩
      exact absurd hc (not_lt.mpr hlat)
    rw [if_neg g1, if_neg g2, if_neg g3]
    constructor
    · intro hlt
      rw [if_pos hlt]
    · intro hge
      rw [if_neg (not_lt.mpr hge)]
  | full =>
    simp only at hlat
    simp only [getZoneName]
    rw [← hdm]
    have g1 : ¬(dm < 1.25) := by linarith
    have g2 : ¬(dm < 4.75) := by linarith
    have g3 : ¬(6.7 < dm ∧ dm < 8.5 ∧ |pos.y - basket.y| > COURT_HEIGHT / 2 * 0.8) := by
      rintro ⟨-, -, hc⟩
      exact absurd hc (not_lt.mpr hlat)
    rw [if_neg g1, if_neg g2, if_neg g3]
    constructor
    · intro hlt
      rw [if_pos hlt]
    · intro hge
      rw [if_neg (not_lt.mpr hge)]

/-- Witness for the amended C2: a position exactly 315 px = 7.0 m from
the basket with zero lateral offset is "Mid-Range". -/
theorem getZoneName_corner_band_fallthrough_witness :
    getZoneName ⟨355, 342.9⟩ ⟨40, 342.9⟩ .full = "Mid-Range" := by
  have hdm : (7 : ℝ) = Real.sqrt (((355 : ℝ) - 40) * ((355 : ℝ) - 40) +
      ((342.9 : ℝ) - 342.9) * ((342.9 : ℝ) - 342.9)) / SCALE := by
    rw [show ((355 : ℝ) - 40) * ((355 : ℝ) - 40) +
      ((342.9 : ℝ) - 342.9) * ((342.9 : ℝ) - 342.9) = 315 ^ 2 by norm_num]
    rw [Real.sqrt_sq (by norm_num : (0 : ℝ) ≤ 315)]
    norm_num [SCALE]
  exact (getZoneName_corner_band_fallthrough ⟨355, 342.9⟩ ⟨40, 342.9⟩ .full 7 hdm
    (by norm_num) (by norm_num)
    (by rw [show |(342.9 : ℝ) - 342.9| = 0 by norm_num]; norm_num [COURT_HEIGHT, SCALE])).1
    (by norm_num)

/-- Counterexample to C3 as stated: an attacker standing exactly on the
basket has `distanceToBasket = 0`, the rim-buffer cap is floored at 0,
and the returned gap is 0, which exceeds `distanceToBasket − 15 = −15`. -/
theorem ghost_gap_rim_buffer_counterexample :
    (calculateGhostDefender ⟨"att", ⟨40, 342.9⟩, none, none⟩
        (some ⟨"ball", ⟨0, 0⟩, some "att"⟩) .full []).gap = 0 ∧
    ¬((calculateGhostDefender ⟨"att", ⟨40, 342.9⟩, none, none⟩
        (some ⟨"ball", ⟨0, 0⟩, some "att"⟩) .full []).gap ≤
      Real.sqrt (((basketPos .full).x - (40 : ℝ)) ^ 2 +
        ((basketPos .full).y - (342.9 : ℝ)) ^ 2) - 15) := by
  have hzero : ((40 : ℝ) - 40) ^ 2 + (COURT_HEIGHT / 2 - (342.9 : ℝ)) ^ 2 = 0 := by
    norm_num [COURT_HEIGHT, SCALE]
  have hzone : getZoneName ⟨40, 342.9⟩ ⟨40, COURT_HEIGHT / 2⟩ .full = "Restricted Area" := by
    simp only [getZoneName]
    rw [show ((40 : ℝ) - 40) * ((40 : ℝ) - 40) +
      ((342.9 : ℝ) - COURT_HEIGHT / 2) * ((342.9 : ℝ) - COURT_HEIGHT / 2) = 0 by
      norm_num [COURT_HEIGHT, SCALE]]
    rw [Real.sqrt_zero]
    rw [if_pos (by norm_num [SCALE] : (0 : ℝ) / SCALE < 1.25)]
  have hinc : jsIncludes "Restricted Area" "Restricted" = true := by decide
  have hgap : (calculateGhostDefender ⟨"att", ⟨40, 342.9⟩, none, none⟩
      (some ⟨"ball", ⟨0, 0⟩, some "att"⟩) .full []).gap = 0 := by
    simp only [calculateGhostDefender, basketPos]
    simp only [hzero, Real.sqrt_zero, hzone, hinc]
    norm_num [onBallGap, min_def, max_def]
  refine ⟨hgap, ?_⟩
  rw [hgap]
  simp only [basketPos]
  rw [show ((40 : ℝ) - 40) ^ 2 + (COURT_HEIGHT / 2 - (342.9 : ℝ)) ^ 2 = 0 by
    norm_num [COURT_HEIGHT, SCALE]]
  rw [Real.sqrt_zero]
  norm_num

/-- C3 amended: in both the on-ball and the off-ball branch, the gap
returned by `calculateGhostDefender` never exceeds
`max 0 (distanceToBasket − 15)` — the rim-buffer cap is floored at zero,
so within 15 court units of the basket the bound is 0, not the negative
`distanceToBasket − 15`. -/
theorem ghost_gap_rim_buffer_amended (attacker : Player) (ball : Option Ball)
    (vm : ViewMode) (allPlayers : List Player) :
    (calculateGhostDefender attacker ball vm allPlayers).gap ≤
      max 0 (Real.sqrt (((basketPos vm).x - attacker.position.x) ^ 2 +
        ((basketPos vm).y - attacker.position.y) ^ 2) - 15) := by
  simp only [calculateGhostDefender]
  split
  · simp only [onBallGap]
    exact min_le_right _ _
  · simp only [offBallGap]
    exact min_le_right _ _

/-- C1 amended: in the screen loop of `calculateGhostDefender`, the
direct-overlap check runs for every entity other than the attacker and
its overlap always accumulates, even when a screen was already detected;
the path-obstruction check, however, is gated on the globally
accumulated `isScreened` flag, so a virtual overlap is only ever added
while no screen at all has been detected yet. -/
theorem screen_accumulation_amended (attacker : Player) (attackerPos : Position)
    (st : ScreenState) (other : Player) (d m : ℝ)
    (hid : other.id ≠ attacker.id)
    (hd : d = Real.sqrt ((st.ghostPos.x - other.position.x) * (st.ghostPos.x - other.position.x) +
      (st.ghostPos.y - other.position.y) * (st.ghostPos.y - other.position.y)))
    (hm : m = 14 + (getPlayerRadius other : ℝ)) :
    (st.isScreened = true →
      (screenStep attacker attackerPos st other).screenDisplacement =
        st.screenDisplacement + (if d < m ∧ 0 < d then m - d else 0)) ∧
    (st.isScreened = false → ¬(d < m ∧ 0 < d) →
      Real.sqrt (distToSegmentSq other.position st.ghostPos attackerPos) < m →
      (screenStep attacker attackerPos st other).screenDisplacement =
        st.screenDisplacement +
          (m - Real.sqrt (distToSegmentSq other.position st.ghostPos attackerPos)) ∧
      (screenStep attacker attackerPos st other).isScreened = true) := by
  subst hd hm
  constructor
  · intro hscr
    simp only [screenStep]
    rw [if_neg hid]
    by_cases hdir : Real.sqrt ((st.ghostPos.x - other.position.x) * (st.ghostPos.x - other.position.x) +
        (st.ghostPos.y - other.position.y) * (st.ghostPos.y - other.position.y)) <
          14 + (getPlayerRadius other : ℝ) ∧
        0 < Real.sqrt ((st.ghostPos.x - other.position.x) * (st.ghostPos.x - other.position.x) +
          (st.ghostPos.y - other.position.y) * (st.ghostPos.y - other.position.y))
    · rw [if_pos hdir, if_pos hdir]
      simp
    · rw [if_neg hdir, if_neg hdir]
      rw [hscr]
      simp
  · intro hscr hdir hpath
    simp only [screenStep]
    rw [if_neg hid, if_neg hdir]
    rw [hscr]
    simp only [if_pos rfl]
    rw [if_pos hpath]
    simp

/-- Witness for the amended C1: with a screen already detected
(`isScreened = true`), a later entity overlapping the candidate directly
still adds its overlap of 8 to the accumulated displacement of 5. -/
theorem screen_accumulation_amended_witness :
    (screenStep ⟨"att", ⟨0, 0⟩, none, none⟩ ⟨0, 0⟩ ⟨⟨0, 10⟩, true, 5⟩
      ⟨"B", ⟨0, 30⟩, none, none⟩).screenDisplacement = 13 := by
  have hd : (20 : ℝ) = Real.sqrt (((0 : ℝ) - 0) * ((0 : ℝ) - 0) +
      ((10 : ℝ) - 30) * ((10 : ℝ) - 30)) := by
    rw [show ((0 : ℝ) - 0) * ((0 : ℝ) - 0) + ((10 : ℝ) - 30) * ((10 : ℝ) - 30) = 20 ^ 2 by
      norm_num]
    rw [Real.sqrt_sq (by norm_num : (0 : ℝ) ≤ 20)]
  have hm : (28 : ℝ) = 14 + ((getPlayerRadius ⟨"B", ⟨0, 30⟩, none, none⟩ : ℚ) : ℝ) := by
    norm_num [getPlayerRadius]
  have h := (screen_accumulation_amended ⟨"att", ⟨0, 0⟩, none, none⟩ ⟨0, 0⟩
    ⟨⟨0, 10⟩, true, 5⟩ ⟨"B", ⟨0, 30⟩, none, none⟩ 20 28 (by decide) hd hm).1 rfl
  rw [h, if_pos ⟨by norm_num, by norm_num⟩]
  norm_num

/-- Counterexample to C1 as stated: attacker at (490, 342.9) with the
ball, 450 px = 10 m straight out from the full-court basket (40, 342.9),
candidate defender at (445, 342.9); screener A at (425, 342.9) overlaps
the candidate directly (overlap 8, candidate pushed to (453, 342.9));
screener B at (470, 369.9) does not overlap directly but obstructs the
path (virtual overlap 1).  The code returns displacement 8 — B's virtual
overlap is not accumulated because the path check is skipped once
`isScreened` is set — whereas the per-entity accumulation the claim
describes yields 9. -/
theorem screen_accumulation_counterexample :
    (calculateGhostDefender ⟨"att", ⟨490, 342.9⟩, none, none⟩
        (some ⟨"ball", ⟨0, 0⟩, some "att"⟩) .full
        [⟨"att", ⟨490, 342.9⟩, none, none⟩, ⟨"A", ⟨425, 342.9⟩, none, none⟩,
         ⟨"B", ⟨470, 369.9⟩, none, none⟩]).screenDisplacement = 8 ∧
    (calculateGhostDefenderSpec ⟨"att", ⟨490, 342.9⟩, none, none⟩
        (some ⟨"ball", ⟨0, 0⟩, some "att"⟩) .full
        [⟨"att", ⟨490, 342.9⟩, none, none⟩, ⟨"A", ⟨425, 342.9⟩, none, none⟩,
         ⟨"B", ⟨470, 369.9⟩, none, none⟩]).screenDisplacement = 9 := by
  have h450 : Real.sqrt 202500 = 450 := by
    rw [show (202500 : ℝ) = 450 ^ 2 by norm_num, Real.sqrt_sq (by norm_num : (0 : ℝ) ≤ 450)]
  have h20 : Real.sqrt 400 = 20 := by
    rw [show (400 : ℝ) = 20 ^ 2 by norm_num, Real.sqrt_sq (by norm_num : (0 : ℝ) ≤ 20)]
  have h27 : Real.sqrt 729 = 27 := by
    rw [show (729 : ℝ) = 27 ^ 2 by norm_num, Real.sqrt_sq (by norm_num : (0 : ℝ) ≤ 27)]
  have h1018 : (28 : ℝ) ≤ Real.sqrt 1018 := by
    rw [show (28 : ℝ) = Real.sqrt 784 by
      rw [show (784 : ℝ) = 28 ^ 2 by norm_num, Real.sqrt_sq (by norm_num : (0 : ℝ) ≤ 28)]]
    exact Real.sqrt_le_sqrt (by norm_num)
  have hzone : getZoneName ⟨490, 342.9⟩ ⟨40, COURT_HEIGHT / 2⟩ .full = "Above the Break 3" := by
    simp only [getZoneName]
    rw [show ((490 : ℝ) - 40) * ((490 : ℝ) - 40) +
      ((342.9 : ℝ) - COURT_HEIGHT / 2) * ((342.9 : ℝ) - COURT_HEIGHT / 2) = 202500 by
      norm_num [COURT_HEIGHT, SCALE], h450]
    have g3 : ¬((6.7 : ℝ) < 450 / SCALE ∧ (450 : ℝ) / SCALE < 8.5 ∧
        |(342.9 : ℝ) - COURT_HEIGHT / 2| > COURT_HEIGHT / 2 * 0.8) := by
      rintro ⟨-, hc, -⟩
      norm_num [SCALE] at hc
    rw [if_neg (by norm_num [SCALE] : ¬((450 : ℝ) / SCALE < 1.25)),
      if_neg (by norm_num [SCALE] : ¬((450 : ℝ) / SCALE < 4.75)), if_neg g3,
      if_neg (by norm_num [SCALE] : ¬((450 : ℝ) / SCALE < 7.24))]
  have hiR : jsIncludes "Above the Break 3" "Restricted" = false := by decide
  have hiP : jsIncludes "Above the Break 3" "Paint" = false := by decide
  have hiM : jsIncludes "Above the Break 3" "Mid" = false := by decide
  have hrA : ((getPlayerRadius ⟨"A", ⟨425, 342.9⟩, none, none⟩ : ℚ) : ℝ) = 14 := by
    norm_num [getPlayerRadius]
  have hrB : ((getPlayerRadius ⟨"B", ⟨470, 369.9⟩, none, none⟩ : ℚ) : ℝ) = 14 := by
    norm_num [getPlayerRadius]
  have hseg : distToSegmentSq ⟨470, 369.9⟩ ⟨453, 342.9⟩ ⟨490, 342.9⟩ = 729 := by
    simp only [distToSegmentSq]
    rw [if_neg (by norm_num : ¬(((453 : ℝ) - 490) ^ 2 + ((342.9 : ℝ) - 342.9) ^ 2 = 0))]
    norm_num [min_def, max_def]
  have heval : ∀ l : List Player,
      calculateGhostDefender ⟨"att", ⟨490, 342.9⟩, none, none⟩
        (some ⟨"ball", ⟨0, 0⟩, some "att"⟩) .full l =
      { position := (l.foldl (screenStep ⟨"att", ⟨490, 342.9⟩, none, none⟩ ⟨490, 342.9⟩)
          ⟨⟨445, 342.9⟩, false, 0⟩).ghostPos
        radius := 14
        gap := 45
        isRealData := false
        pct := 0.35
        isScreened := (l.foldl (screenStep ⟨"att", ⟨490, 342.9⟩, none, none⟩ ⟨490, 342.9⟩)
          ⟨⟨445, 342.9⟩, false, 0⟩).isScreened
        screenDisplacement := (l.foldl (screenStep ⟨"att", ⟨490, 342.9⟩, none, none⟩ ⟨490, 342.9⟩)
          ⟨⟨445, 342.9⟩, false, 0⟩).screenDisplacement } := by
    intro l
    simp only [calculateGhostDefender, basketPos]
    simp only [hzone, hiR, hiP, hiM]
    simp only [show ((40 : ℝ) - 490) ^ 2 + (COURT_HEIGHT / 2 - (342.9 : ℝ)) ^ 2 = 202500 from by
      norm_num [COURT_HEIGHT, SCALE], h450]
    norm_num [onBallGap, min_def, max_def, COURT_HEIGHT, SCALE]
  have s1 : screenStep ⟨"att", ⟨490, 342.9⟩, none, none⟩ ⟨490, 342.9⟩ ⟨⟨445, 342.9⟩, false, 0⟩
      ⟨"att", ⟨490, 342.9⟩, none, none⟩ = ⟨⟨445, 342.9⟩, false, 0⟩ := by
    simp only [screenStep]
    rw [if_pos trivial]
  have s2 : screenStep ⟨"att", ⟨490, 342.9⟩, none, none⟩ ⟨490, 342.9⟩ ⟨⟨445, 342.9⟩, false, 0⟩
      ⟨"A", ⟨425, 342.9⟩, none, none⟩ = ⟨⟨453, 342.9⟩, true, 8⟩ := by
    simp only [screenStep]
    rw [if_neg (by decide : ¬(("A" : String) = "att"))]
    rw [show ((445 : ℝ) - 425) * ((445 : ℝ) - 425) +
      ((342.9 : ℝ) - 342.9) * ((342.9 : ℝ) - 342.9) = 400 by norm_num, h20, hrA]
    rw [if_pos (by norm_num : (20 : ℝ) < 14 + 14 ∧ (0 : ℝ) < 20)]
    norm_num
  have s3 : screenStep ⟨"att", ⟨490, 342.9⟩, none, none⟩ ⟨490, 342.9⟩ ⟨⟨453, 342.9⟩, true, 8⟩
      ⟨"B", ⟨470, 369.9⟩, none, none⟩ = ⟨⟨453, 342.9⟩, true, 8⟩ := by
    simp only [screenStep]
    rw [if_neg (by decide : ¬(("B" : String) = "att"))]
    rw [show ((453 : ℝ) - 470) * ((453 : ℝ) - 470) +
      ((342.9 : ℝ) - 369.9) * ((342.9 : ℝ) - 369.9) = 1018 by norm_num, hrB]
    rw [if_neg (by rintro ⟨hc, -⟩; linarith [h1018] :
      ¬(Real.sqrt 1018 < 14 + 14 ∧ (0 : ℝ) < Real.sqrt 1018))]
    norm_num
  have t1 : screenStepSpec ⟨"att", ⟨490, 342.9⟩, none, none⟩ ⟨490, 342.9⟩ ⟨⟨445, 342.9⟩, false, 0⟩
      ⟨"att", ⟨490, 342.9⟩, none, none⟩ = ⟨⟨445, 342.9⟩, false, 0⟩ := by
    simp only [screenStepSpec]
    rw [if_pos trivial]
  have t2 : screenStepSpec ⟨"att", ⟨490, 342.9⟩, none, none⟩ ⟨490, 342.9⟩ ⟨⟨445, 342.9⟩, false, 0⟩
      ⟨"A", ⟨425, 342.9⟩, none, none⟩ = ⟨⟨453, 342.9⟩, true, 8⟩ := by
    simp only [screenStepSpec]
    rw [if_neg (by decide : ¬(("A" : String) = "att"))]
    rw [show ((445 : ℝ) - 425) * ((445 : ℝ) - 425) +
      ((342.9 : ℝ) - 342.9) * ((342.9 : ℝ) - 342.9) = 400 by norm_num, h20, hrA]
    have hdir : (20 : ℝ) < 14 + 14 ∧ (0 : ℝ) < 20 := by norm_num
    rw [if_pos hdir, if_neg (not_not_intro hdir)]
    norm_num
  have t3 : screenStepSpec ⟨"att", ⟨490, 342.9⟩, none, none⟩ ⟨490, 342.9⟩ ⟨⟨453, 342.9⟩, true, 8⟩
      ⟨"B", ⟨470, 369.9⟩, none, none⟩ = ⟨⟨453, 342.9⟩, true, 9⟩ := by
    simp only [screenStepSpec]
    rw [if_neg (by decide : ¬(("B" : String) = "att"))]
    rw [show ((453 : ℝ) - 470) * ((453 : ℝ) - 470) +
      ((342.9 : ℝ) - 369.9) * ((342.9 : ℝ) - 369.9) = 1018 by norm_num, hrB]
    have hdir : ¬(Real.sqrt 1018 < 14 + 14 ∧ (0 : ℝ) < Real.sqrt 1018) := by
      rintro ⟨hc, -⟩
      linarith [h1018]
    rw [if_neg hdir, if_pos hdir]
    rw [hseg, h27]
    rw [if_pos (by norm_num : (27 : ℝ) < 14 + 14)]
    norm_num
  constructor
  · rw [heval]
    simp only [List.foldl_cons, List.foldl_nil]
    rw [s1, s2, s3]
  · simp only [calculateGhostDefenderSpec]
    rw [heval]
    simp only [List.foldl_nil, List.foldl_cons]
    rw [t1, t2, t3]

end TacticsBoard
